import Mathlib

/-!
Verification development for the slide-deck generator repository
(`slides/generate_slides.py` and `generate_slides.py`).

The Python sources are shallowly embedded: pure geometry becomes integer
arithmetic (python-pptx `Inches(x)` is `int(x * 914400)` EMU; every inch
value appearing in the sources has at most two decimals, for which the
conversion is exactly `9144 * (100 x)`, checked numerically), drawing
calls become lists of primitive records, the filesystem and the font
rasterizer become explicit environments (`Env`, `Draw`), and the CLI
`main` becomes a function from its parsed arguments to the list of
emitted output events.
-/

namespace SlidesGen

/-- RGB color triple; embeds both PIL color tuples and pptx `RGBColor`. -/
structure RGB where
  r : Nat
  g : Nat
  b : Nat
deriving DecidableEq

/-- A font handle as produced by `PIL.ImageFont`: either
`ImageFont.truetype(path, size)` or `ImageFont.load_default()`. -/
inductive Font
  | truetype (path : String) (size : Nat)
  | load_default
deriving DecidableEq

/-- The ambient filesystem / image-loading environment.
`fileExists` embeds `os.path.exists` / `Path.exists`; `loadOk p` says that
opening the font or image file at `p` succeeds (no `OSError`);
`addPictureOk p` says `slide.shapes.add_picture` succeeds on `p`
(its failures are swallowed by `try/except` in the source). -/
structure Env where
  fileExists : String → Bool
  loadOk : String → Bool
  addPictureOk : String → Bool

/-- Text metrics of the PIL rasterizer: `textWidth f s` is
`bbox[2] - bbox[0]` and `textBottom f s` is `bbox[3]` of
`draw.textbbox((0, 0), s, font=f)`. -/
structure Draw where
  textWidth : Font → String → Int
  textBottom : Font → String → Int

/-- The word separator used when joining words into a line. -/
def sepStr : String := " "

/-- The probe string whose bbox gives the default line height
(`draw.textbbox((0, 0), "Ag", font=font)[3] + 4`). -/
def agStr : String := "Ag"

/-- Character-list worker for Python `str.split()`: splits on whitespace
runs and drops empty tokens.  `acc` holds the current token reversed. -/
def pySplitChars : List Char → List Char → List (List Char)
  | [], acc => if acc.isEmpty then [] else [acc.reverse]
  | c :: cs, acc =>
    if c.isWhitespace then
      if acc.isEmpty then pySplitChars cs []
      else acc.reverse :: pySplitChars cs []
    else pySplitChars cs (c :: acc)

/-- Python `text.split()` (split on whitespace, no empty tokens). -/
def pySplit (text : String) : List String :=
  (pySplitChars text.data []).map (fun l => String.mk l)

/-- The string a line of words renders as.  The source keeps the current
line as a string built by `current + " " + word` (with a `strip()` that
only ever removes the leading separator when `current` is empty, because
`split()` tokens contain no whitespace); we keep the line as its list of
words, and `lineText` rebuilds the string exactly as the source does. -/
def lineText : List String → String
  | [] => ""
  | w :: ws => ws.foldl (fun acc x => acc ++ sepStr ++ x) w

/-- One step of the greedy wrap loop in `_draw_wrapped_text`
(`slides/generate_slides.py`): try to append `word` to the current line;
on overflow commit the current line (if nonempty) and start a new line
with the overflowing word. -/
def wrapStep (w : String → Int) (maxW : Int)
    (st : List (List String) × List String) (word : String) :
    List (List String) × List String :=
  let test := lineText (st.2 ++ [word])
  if w test ≤ maxW then (st.1, st.2 ++ [word])
  else if st.2.isEmpty then (st.1, [word])
  else (st.1 ++ [st.2], [word])

/-- The full greedy wrap of `_draw_wrapped_text`, producing the lines as
lists of words (the trailing current line is committed if nonempty). -/
def wrapWords (w : String → Int) (maxW : Int) (words : List String) :
    List (List String) :=
  let st := words.foldl (wrapStep w maxW) ([], [])
  if st.2.isEmpty then st.1 else st.1 ++ [st.2]

/-- The wrapped lines of `_draw_wrapped_text` as strings. -/
def wrapLines (w : String → Int) (maxW : Int) (text : String) : List String :=
  (wrapWords w maxW (pySplit text)).map lineText

/-- Python `a or b` on the `line_height` argument: `None` and `0` are
falsy and select the default. -/
def pyOr (a : Option Int) (b : Int) : Int :=
  match a with
  | none => b
  | some n => if n = 0 then b else n

/-- A PIL drawing primitive (one `draw.*` call on the preview canvas). -/
inductive PPrim
  | rect (x0 y0 x1 y1 : Int) (fill : Option RGB) (outl : Option RGB) (w : Nat)
  | lineSeg (x0 y0 x1 y1 : Int) (color : RGB) (w : Nat)
  | ellipse (x0 y0 x1 y1 : Int) (fill : RGB)
  | text (x y : Int) (s : String) (font : Font) (fill : RGB) (anchorMM : Bool)
deriving DecidableEq

/-- Source `_draw_wrapped_text(draw, text, font, x, y, max_width, fill,
line_height)` from `slides/generate_slides.py`: wraps `text` greedily,
draws one `draw.text` per line advancing `y` by the line height, and
returns the final `y` position together with the drawn primitives. -/
def draw_wrapped_text (M : Draw) (text : String) (font : Font) (x y : Int)
    (max_width : Int) (fill : RGB) (line_height : Option Int) :
    Int × List PPrim :=
  let lines := wrapLines (fun s => M.textWidth font s) max_width text
  let lh := pyOr line_height (M.textBottom font agStr + 4)
  lines.foldl
    (fun st line => (st.1 + lh, st.2 ++ [PPrim.text x st.1 line font fill false]))
    (y, [])

/-! ## Font loading (`_load_font`, `_load_font_bold`, and the preview
font block of `generate_slides.py`) -/

/-- Candidate font paths of `_load_font` (`slides/generate_slides.py`). -/
def fontCandidates : List String :=
  ["/usr/share/fonts/truetype/msttcorefonts/Calibri.ttf",
   "/usr/share/fonts/truetype/liberation/LiberationSans-Regular.ttf",
   "/usr/share/fonts/truetype/dejavu/DejaVuSans.ttf",
   "/usr/share/fonts/truetype/freefont/FreeSans.ttf",
   "/Library/Fonts/Calibri.ttf",
   "/System/Library/Fonts/Helvetica.ttc",
   "C:/Windows/Fonts/calibri.ttf",
   "C:/Windows/Fonts/arial.ttf"]

/-- Candidate font paths of `_load_font_bold`. -/
def fontBoldCandidates : List String :=
  ["/usr/share/fonts/truetype/msttcorefonts/Calibrib.ttf",
   "/usr/share/fonts/truetype/liberation/LiberationSans-Bold.ttf",
   "/usr/share/fonts/truetype/dejavu/DejaVuSans-Bold.ttf",
   "/usr/share/fonts/truetype/freefont/FreeSansBold.ttf",
   "/Library/Fonts/CalibriBold.ttf",
   "/System/Library/Fonts/Helvetica.ttc",
   "C:/Windows/Fonts/calibrib.ttf",
   "C:/Windows/Fonts/arialbd.ttf"]

/-- Source `ImageFont.truetype(p, size)` succeeds iff the file exists and loads
without `OSError`. -/
def ttOk (env : Env) (p : String) : Bool :=
  env.fileExists p && env.loadOk p

/-- The shared loop body of `_load_font` / `_load_font_bold`: walk the
candidate list; for an existing path try `ImageFont.truetype` (an
`OSError` is swallowed and the walk continues); if nothing loads, return
`ImageFont.load_default()`. -/
def loadFrom (env : Env) (size : Nat) : List String → Font
  | [] => Font.load_default
  | p :: ps =>
    if env.fileExists p then
      if env.loadOk p then Font.truetype p size else loadFrom env size ps
    else loadFrom env size ps

/-- Source `_load_font(size)` from `slides/generate_slides.py`. -/
def load_font (env : Env) (size : Nat) : Font :=
  loadFrom env size fontCandidates

/-- Source `_load_font_bold(size)` from `slides/generate_slides.py`. -/
def load_font_bold (env : Env) (size : Nat) : Font :=
  loadFrom env size fontBoldCandidates

/-- DejaVu font paths used by `generate_preview` (`generate_slides.py`). -/
def dejavuBoldPath : String :=
  "/usr/share/fonts/truetype/dejavu/DejaVuSans-Bold.ttf"

/-- Regular DejaVu font path used by `generate_preview`. -/
def dejavuPath : String :=
  "/usr/share/fonts/truetype/dejavu/DejaVuSans.ttf"

/-- The font block of `generate_preview` (`generate_slides.py`, lines
401-417): one `try` loads four truetype fonts; on any failure all four
fall back to `ImageFont.load_default()`.  Returned in source order:
(title, subtitle, body, footer). -/
def gpFonts (env : Env) (is_title_slide : Bool) : Font × Font × Font × Font :=
  let titleSize : Nat := if is_title_slide then 52 else 42
  if ttOk env dejavuBoldPath && ttOk env dejavuPath then
    (Font.truetype dejavuBoldPath titleSize, Font.truetype dejavuPath 30,
     Font.truetype dejavuPath 22, Font.truetype dejavuPath 13)
  else
    (Font.load_default, Font.load_default, Font.load_default, Font.load_default)

/-! ## Slide data -/

/-- One entry of the `images` list of a slide. -/
structure ImageInfo where
  path : String
  caption : String
  optionalFlag : Bool
deriving DecidableEq

/-- A slide descriptor: one dict of the static `SLIDES` list of
`slides/generate_slides.py`.  Absent keys are modelled by the defaults
the source reads them with (`slide_data.get(key, ...)`); the only `meta`
subkey ever read is `right_corner`. -/
structure SlideData where
  id : String
  layout : String
  title : String
  subtitle : String := ""
  metaRightCorner : List String := []
  bullets : List String := []
  callouts : List String := []
  images : List ImageInfo := []
deriving DecidableEq

/-- The sub-bullet marker `"\u2022"`. -/
def subMarker : Char := '\u2022'

/-- Source `bullet.startswith("\u2022")`: since the marker is a single
character this is exactly "the first character is the marker". -/
def isSub (b : String) : Bool :=
  match b.data with
  | [] => false
  | c :: _ => c = subMarker

/-! ## Style constants (`slides/generate_slides.py`) -/

/-- Source `#111827` near-black (`PRIMARY` / `C_PRIMARY`). -/
def C_PRIMARY : RGB := ⟨0x11, 0x18, 0x27⟩

/-- Source `#2563EB` blue (`ACCENT` / `C_ACCENT`). -/
def C_ACCENT : RGB := ⟨0x25, 0x63, 0xEB⟩

/-- White (`WHITE` / `C_WHITE`). -/
def C_WHITE : RGB := ⟨0xFF, 0xFF, 0xFF⟩

/-- Source `LIGHT_GRAY` / `C_LIGHT_GRAY`. -/
def C_LIGHT_GRAY : RGB := ⟨243, 244, 246⟩

/-- Source `C_MID_GRAY` (also `C_MID_GRAY_RGB`). -/
def C_MID_GRAY : RGB := ⟨156, 163, 175⟩

/-- Source `TITLE_PT`. -/
def TITLE_PT : Nat := 40

/-- Source `BODY_PT`. -/
def BODY_PT : Nat := 24

/-- Source `FOOTER_PT`. -/
def FOOTER_PT : Nat := 12

/-- Source `CALLOUT_PT`. -/
def CALLOUT_PT : Nat := 18

/-- Source `FOOTER_TEXT`. -/
def FOOTER_TEXT : String :=
  "Inspektor Gadget MCP Server  •  https://github.com/inspektor-gadget/ig-mcp-server"

/-! ## The static slide list (`SLIDES` in `slides/generate_slides.py`) -/

/-- The hard-coded `SLIDES` list of `slides/generate_slides.py`,
transcribed verbatim (`\x27` is the ASCII apostrophe). -/
def SLIDES : List SlideData :=
  [{ id := "title", layout := "title",
     title := "Ask and You Shall Debug:",
     subtitle := "Conversational Troubleshooting for Kubernetes",
     metaRightCorner := ["SCaLE"] },
   { id := "why-and-setup", layout := "title_and_bullets",
     title := "Why conversational troubleshooting?",
     bullets :=
       ["Incidents are time-sensitive and cognitively expensive",
        "Troubleshooting often requires many tools + exact commands",
        "Goal: make real-time observability accessible via natural language",
        "We\x27ll follow an on-call story and resolve multiple scenarios"] },
   { id := "agenda", layout := "title_and_bullets",
     title := "Agenda",
     bullets :=
       ["Demo 1: DNS latency (trace_dns)",
        "Zoom out: Inspektor Gadget + gadgets",
        "Why MCP server (and how it fits)",
        "Mini-demos: disk pressure, CPU saturation, networking misconfig",
        "Wrap-up + resources"] },
   { id := "scenario-1-dns-symptoms", layout := "title_and_bullets",
     title := "Scenario 1: Slow requests → DNS latency",
     bullets :=
       ["Symptom: intermittent slowness / timeouts",
        "Hypothesis space is large (DNS, network, app, load, etc.)",
        "We start by validating whether DNS resolution is slow",
        "Tool we\x27ll use: trace_dns"],
     callouts := ["Key idea: measure, don\x27t guess."] },
   { id := "scenario-1-dns-trace", layout := "title_and_bullets",
     title := "Using trace_dns to observe DNS in real time",
     bullets :=
       ["trace_dns traces DNS requests and responses",
        "It captures request/response pairs and computes latency",
        "Use it to identify slow lookups and affected workloads",
        "Outcome: narrow the problem quickly and objectively"],
     images :=
       [{ path := "docs/media/placeholder_trace_dns.png",
          caption := "trace_dns output / table", optionalFlag := true }] },
   { id := "zoom-out-what-is-ig", layout := "title_and_bullets",
     title := "What is Inspektor Gadget?",
     bullets :=
       ["A systems inspection + data collection framework powered by eBPF",
        "Provides observability in Kubernetes and Linux contexts",
        "Ships a wide selection of “gadgets” for debugging and monitoring",
        "Designed to make low-level visibility usable in familiar workflows"] },
   { id := "what-is-a-gadget", layout := "title_and_bullets",
     title := "What is a “gadget”?",
     bullets :=
       ["A purpose-built observability tool (trace / snapshot / top / profile)",
        "Examples we\x27ll use today:",
        "• trace_dns (DNS requests/responses + latency)",
        "• profile_blockio + top_blockio (disk pressure / block I/O)",
        "• top_process (CPU-heavy processes)",
        "• tcpdump (packet capture with filters in container context)"] },
   { id := "why-mcp", layout := "title_and_bullets",
     title := "Problem: many gadgets → hard to choose",
     bullets :=
       ["Inspektor Gadget has a large library of powerful gadgets",
        "In an incident, picking the *right* gadget quickly is the hard part",
        "Teams end up memorizing commands, or reaching for familiar tools first",
        "We wanted: “describe the symptom → get the right tool + next step”"],
     callouts := ["This is where we discovered MCP."] },
   { id := "what-is-mcp", layout := "title_and_bullets",
     title := "What is MCP (Model Context Protocol)?",
     bullets :=
       ["A standard way for an LLM to call external tools in a structured, safe way",
        "Tools are exposed with names + schemas (inputs/outputs are predictable)",
        "Lets the model choose actions (run tools) and then explain results",
        "In our case: the tools are Inspektor Gadget gadgets via ig-mcp-server"],
     callouts := ["MCP turns “chat” into “chat + actions” (tool calls)."] },
   { id := "architecture-high-level", layout := "title_and_bullets",
     title := "High-level architecture",
     bullets :=
       ["Copilot/LLM ↔ MCP protocol ↔ ig-mcp-server ↔ Inspektor Gadget gadgets",
        "Gadgets provide real-time signals; LLM turns signals into next steps",
        "MCP server transports: stdio / sse / streamable-http",
        "Gadget discovery: Artifact Hub or explicit gadget images"],
     images :=
       [{ path := "docs/media/placeholder_architecture.png",
          caption := "LLM → MCP → IG MCP server → IG gadgets",
          optionalFlag := true }] },
   { id := "human-vs-ai", layout := "title_and_bullets",
     title := "Human vs. AI troubleshooting",
     bullets :=
       ["Humans: hypothesis-driven, sequential, bias-prone under pressure",
        "LLM + real-time tools: broader search, more consistent method",
        "Best results come from collaboration (human judgment + machine speed)",
        "Guardrail: confirm findings with observable evidence"] },
   { id := "scenario-2-disk-pressure", layout := "title_and_bullets",
     title := "Scenario 2: Disk pressure",
     bullets :=
       ["Symptom: disk pressure alerts, slow writes, cascading failures",
        "Identify which workloads drive I/O and what patterns are present",
        "Gadgets:",
        "• profile_blockio (profiling block I/O behavior)",
        "• top_blockio (top block I/O contributors)"],
     images :=
       [{ path := "docs/media/placeholder_blockio.png",
          caption := "profile_blockio / top_blockio output",
          optionalFlag := true }] },
   { id := "scenario-3-cpu", layout := "title_and_bullets",
     title := "Scenario 3: CPU saturation",
     bullets :=
       ["Symptom: high latency + throttling + noisy neighbor suspicion",
        "Goal: identify CPU-heavy processes in the relevant workload context",
        "Gadget: top_process",
        "Optional deeper profiling exists: profile_cpu"] },
   { id := "scenario-4-networking", layout := "title_and_bullets",
     title := "Scenario 4: Networking config/port mismatch",
     bullets :=
       ["Symptom: app can’t connect / sporadic failures",
        "Validate assumptions by observing real packets",
        "Gadget: tcpdump (packet capture with pcap-compatible filters)",
        "Outcome: confirm mismatch between expected vs actual traffic patterns"],
     images :=
       [{ path := "docs/media/placeholder_tcpdump.png",
          caption := "tcpdump gadget output", optionalFlag := true }] },
   { id := "operations-safety", layout := "title_and_bullets",
     title := "Operations & safety",
     bullets :=
       ["Run MCP server in read-only mode when appropriate",
        "Use restricted permissions via dedicated service account",
        "Reduce scope to avoid overload (namespace, limits, timeouts)",
        "Treat AI recommendations as hypotheses until validated"] },
   { id := "wrap-up", layout := "title_and_bullets",
     title := "Wrap-up",
     bullets :=
       ["Inspektor Gadget: real-time observability powered by eBPF",
        "MCP server: makes gadgets accessible through an AI interface",
        "Scenarios: DNS latency, disk pressure, CPU saturation, networking",
        "Resources:",
        "• IG MCP Server: https://github.com/inspektor-gadget/ig-mcp-server",
        "• Inspektor Gadget: https://github.com/inspektor-gadget/inspektor-gadget",
        "• Website: https://www.inspektor-gadget.io/"] }]

/-! ## PPTX primitives and geometry (`slides/generate_slides.py`)

python-pptx `Inches(x)` is `int(x * 914400)` EMU.  Every inch value in
the sources has at most two decimals and converts exactly, so inches are
written as hundredths: `Inches100 k = 9144 * k` EMU. -/

/-- EMU value of `Inches(k / 100)` (exact for all values in the source). -/
def Inches100 (k : Nat) : Int := 9144 * k

/-- Source `SLIDE_W = Inches(13.33)`. -/
def SLIDE_W : Int := Inches100 1333

/-- Source `SLIDE_H = Inches(7.5)`. -/
def SLIDE_H : Int := Inches100 750

/-- Paragraph alignment of a pptx text box. -/
inductive Align
  | left
  | center
  | right
deriving DecidableEq

/-- A pptx drawing primitive: one shape added to a slide.  Fields follow
`_add_text_box(slide, left, top, width, height, text, size_pt, bold,
color, align, italic)`, `_add_rect` and `add_picture`. -/
inductive Prim
  | background (color : RGB)
  | rect (left top width height : Int) (fill : RGB)
  | textbox (left top width height : Int) (text : String) (sizePt : Nat)
      (bold : Bool) (italic : Bool) (color : Option RGB) (align : Align)
  | picture (path : String) (left top width height : Int)
deriving DecidableEq

/-- Source `bool(slide_data.get("images"))`. -/
def hasImage (d : SlideData) : Bool := !d.images.isEmpty

/-- Source `content_right` of `_build_content_slide`:
`SLIDE_W - Inches(3.8) if has_image else SLIDE_W - Inches(0.5)`. -/
def contentRightPptx (d : SlideData) : Int :=
  if hasImage d then SLIDE_W - Inches100 380 else SLIDE_W - Inches100 50

/-- Source `line_h = Inches(0.48)` of the bullet loop. -/
def pptxLineH : Int := Inches100 48

/-- Bullet indent: `Inches(0.55) if is_sub else Inches(0.25)`. -/
def bulletIndentPptx (b : String) : Int :=
  if isSub b then Inches100 55 else Inches100 25

/-- Left edge of a bullet text box: `Inches(0.5) + indent`. -/
def bulletLeftPptx (b : String) : Int := Inches100 50 + bulletIndentPptx b

/-- Top of the `i`-th bullet text box: `bullet_top + i * line_h` with
`bullet_top = Inches(1.75)`. -/
def bulletTopPptx (i : Nat) : Int := Inches100 175 + (i : Int) * pptxLineH

/-- The bullet text boxes of `_build_content_slide` (one per entry of
`bullets`, in order). -/
def pptxBulletPrims (d : SlideData) : List Prim :=
  d.bullets.enum.map fun p =>
    Prim.textbox (bulletLeftPptx p.2) (bulletTopPptx p.1)
      (contentRightPptx d - Inches100 60 - bulletIndentPptx p.2) pptxLineH
      p.2 (if isSub p.2 then BODY_PT - 4 else BODY_PT - 2) false false
      (some C_PRIMARY) Align.left

/-- Source `callout_top = bullet_top + len(bullets) * line_h + Inches(0.15)`
(the loop draws every callout at this same top). -/
def calloutTopPptx (d : SlideData) : Int :=
  Inches100 175 + (d.bullets.length : Int) * pptxLineH + Inches100 15

/-- The callout box/text primitives of `_build_content_slide`. -/
def pptxCalloutPrims (d : SlideData) : List Prim :=
  if d.callouts.isEmpty then []
  else
    (d.callouts.map fun c =>
      [Prim.rect (Inches100 50) (calloutTopPptx d)
         (contentRightPptx d - Inches100 100) (Inches100 55) ⟨239, 246, 255⟩,
       Prim.textbox (Inches100 65) (calloutTopPptx d + Inches100 5)
         (contentRightPptx d - Inches100 120) (Inches100 48) c CALLOUT_PT
         true true (some C_ACCENT) Align.left]).flatten

/-- Source `panel_left = SLIDE_W - Inches(3.6)`. -/
def panelLeftPptx : Int := SLIDE_W - Inches100 360

/-- Source `panel_top = Inches(1.65)`. -/
def panelTopPptx : Int := Inches100 165

/-- Source `panel_w = Inches(3.2)`. -/
def panelWPptx : Int := Inches100 320

/-- Source `panel_h = Inches(4.4)`. -/
def panelHPptx : Int := Inches100 440

/-- The image-panel background rectangle of `_build_content_slide`. -/
def pptxPanelRect : Prim :=
  Prim.rect panelLeftPptx panelTopPptx panelWPptx panelHPptx C_LIGHT_GRAY

/-- The image-panel caption text box of `_build_content_slide`. -/
def pptxCaptionBox (caption : String) : Prim :=
  Prim.textbox panelLeftPptx (panelTopPptx + panelHPptx - Inches100 55)
    panelWPptx (Inches100 45) caption 10 false false
    (some ⟨107, 114, 128⟩) Align.center

/-- The right-side image panel of `_build_content_slide`: panel
background, attempted picture placement (only when the file exists;
`add_picture` failures are swallowed by `try/except`), and the caption
text when nonempty.  The `REPO_ROOT /` prefix of the image path is an
injective path join absorbed into `Env.fileExists`. -/
def pptxImagePrims (env : Env) (d : SlideData) : List Prim :=
  match d.images with
  | [] => []
  | img :: _ =>
    [pptxPanelRect]
    ++ (if env.fileExists img.path then
          if env.addPictureOk img.path then
            [Prim.picture img.path (panelLeftPptx + Inches100 10)
               (panelTopPptx + Inches100 10) (panelWPptx - Inches100 20)
               (panelHPptx - Inches100 60)]
          else []
        else [])
    ++ (if img.caption ≠ "" then [pptxCaptionBox img.caption] else [])

/-- The footer text box of `_add_footer`. -/
def pptxFooterPrim : Prim :=
  Prim.textbox (Inches100 25) (SLIDE_H - Inches100 45)
    (SLIDE_W - Inches100 50) (Inches100 35) FOOTER_TEXT FOOTER_PT
    false false (some C_MID_GRAY) Align.center

/-- Source `_build_content_slide(prs, slide_data)`: all shapes added to a
content slide, in source order. -/
def build_content_slide (env : Env) (d : SlideData) : List Prim :=
  [Prim.background C_WHITE,
   Prim.rect 0 0 SLIDE_W (Inches100 150) C_PRIMARY,
   Prim.textbox (Inches100 40) (Inches100 20)
     (contentRightPptx d - Inches100 40) (Inches100 110) d.title
     (TITLE_PT - 4) true false (some C_WHITE) Align.left,
   Prim.rect (Inches100 50) (Inches100 155) (SLIDE_W - Inches100 100)
     (Inches100 4) C_ACCENT]
  ++ pptxBulletPrims d
  ++ pptxCalloutPrims d
  ++ pptxImagePrims env d
  ++ [pptxFooterPrim]

/-! ## PIL preview renderer (`slides/generate_slides.py`) -/

/-- Source `PX_W` (preview canvas width, pixels). -/
def PX_W : Int := 1280

/-- Source `PX_H` (preview canvas height, pixels). -/
def PX_H : Int := 720

/-- Source `TITLE_STRIP_H` of `_render_content_slide`. -/
def TITLE_STRIP_H : Int := 110

/-- Source `content_right` of `_render_content_slide`:
`PX_W - 340 if has_image else PX_W - 40`. -/
def contentRightPil (d : SlideData) : Int :=
  if hasImage d then PX_W - 340 else PX_W - 40

/-- Source `bx = 70 if is_sub else 45`. -/
def bulletX (b : String) : Int := if isSub b then 70 else 45

/-- One bullet of the preview bullet loop: its text, the position it was
drawn at, and the primitives it emitted (dot marker plus wrapped text). -/
structure BulletDraw where
  text : String
  x : Int
  y : Int
  prims : List PPrim
deriving DecidableEq

/-- One iteration of the bullet loop of `_render_content_slide`: pick
indent/font/color by sub-bullet status, draw the dot for non-sub
bullets, draw the wrapped text (line height 36), then advance `y` by 6
past the returned final position. -/
def pilBulletStep (M : Draw) (body_font sub_font : Font) (cr : Int)
    (st : Int × List BulletDraw) (bullet : String) :
    Int × List BulletDraw :=
  let bx := bulletX bullet
  let bfont := if isSub bullet then sub_font else body_font
  let bcolor : RGB := if isSub bullet then ⟨75, 85, 99⟩ else C_PRIMARY
  let dot : List PPrim :=
    if isSub bullet then []
    else [PPrim.ellipse (bx - 16) (st.1 + 10) (bx - 8) (st.1 + 18) C_ACCENT]
  let res := draw_wrapped_text M bullet bfont bx st.1 (cr - bx - 20) bcolor
    (some 36)
  (res.1 + 6, st.2 ++ [{ text := bullet, x := bx, y := st.1, prims := dot ++ res.2 }])

/-- The whole bullet loop of `_render_content_slide`, starting at
`y = TITLE_STRIP_H + 24` with `body_font = _load_font(26)` and
`sub_font = _load_font(22)`; returns the final `y` and the bullets drawn. -/
def pilBullets (M : Draw) (env : Env) (d : SlideData) :
    Int × List BulletDraw :=
  d.bullets.foldl
    (pilBulletStep M (load_font env 26) (load_font env 22) (contentRightPil d))
    (TITLE_STRIP_H + 24, [])

/-- One callout drawn by the preview callout loop. -/
structure CalloutDraw where
  text : String
  y : Int
  prims : List PPrim
deriving DecidableEq

/-- One iteration of the callout loop: light box, accent left edge,
text; then `y += box_h + 10` with `box_h = 48`. -/
def pilCalloutStep (callout_font : Font) (cr : Int)
    (st : Int × List CalloutDraw) (c : String) : Int × List CalloutDraw :=
  let box_h : Int := 48
  (st.1 + box_h + 10,
   st.2 ++ [{ text := c, y := st.1,
              prims :=
                [PPrim.rect 40 st.1 (cr - 20) (st.1 + box_h)
                   (some ⟨239, 246, 255⟩) none 0,
                 PPrim.rect 40 st.1 44 (st.1 + box_h) (some C_ACCENT) none 0,
                 PPrim.text 56 (st.1 + 12) c callout_font C_ACCENT false] }])

/-- The callout block of `_render_content_slide`: nothing when
`callouts` is empty, else `y += 10` and then the loop, with
`callout_font = _load_font_bold(22)`. -/
def pilCallouts (M : Draw) (env : Env) (d : SlideData) :
    Int × List CalloutDraw :=
  if d.callouts.isEmpty then ((pilBullets M env d).1, [])
  else
    d.callouts.foldl
      (pilCalloutStep (load_font_bold env 22) (contentRightPil d))
      ((pilBullets M env d).1 + 10, [])

/-- The right-side image panel of `_render_content_slide`: background,
accent outline, placeholder cross lines, caption when nonempty (the
preview path never attempts to place the image file itself).
`panel_h = int(PX_H * 0.67) = 482` (checked numerically). -/
def pilImagePanel (caption_font : Font) (d : SlideData) : List PPrim :=
  match d.images with
  | [] => []
  | img :: _ =>
    let panel_x : Int := PX_W - 325
    let panel_y : Int := TITLE_STRIP_H + 14
    let panel_w : Int := 295
    let panel_h : Int := 482
    let cx := panel_x + panel_w / 2
    let cy := panel_y + panel_h / 2 - 20
    [PPrim.rect panel_x panel_y (panel_x + panel_w) (panel_y + panel_h)
       (some C_LIGHT_GRAY) none 0,
     PPrim.rect panel_x panel_y (panel_x + panel_w) (panel_y + panel_h)
       none (some C_ACCENT) 2,
     PPrim.lineSeg (panel_x + 20) cy (panel_x + panel_w - 20) cy C_MID_GRAY 1,
     PPrim.lineSeg cx (panel_y + 20) cx (panel_y + panel_h - 40) C_MID_GRAY 1]
    ++ (if img.caption ≠ "" then
          [PPrim.text (panel_x + 6) (panel_y + panel_h + 4) img.caption
             caption_font ⟨107, 114, 128⟩ false]
        else [])

/-- Source `_render_content_slide(slide_data)`: the full preview canvas, in
source order (the `Image.new` white background is the first rect). -/
def render_content_slide (M : Draw) (env : Env) (d : SlideData) :
    List PPrim :=
  let cr := contentRightPil d
  [PPrim.rect 0 0 PX_W PX_H (some C_WHITE) none 0,
   PPrim.rect 0 0 PX_W TITLE_STRIP_H (some C_PRIMARY) none 0]
  ++ (draw_wrapped_text M d.title (load_font_bold env 44) 30 18 (cr - 40)
        C_WHITE (some 52)).2
  ++ [PPrim.rect 40 (TITLE_STRIP_H + 4) (cr - 20) (TITLE_STRIP_H + 8)
        (some C_ACCENT) none 0]
  ++ ((pilBullets M env d).2.map (fun b => b.prims)).flatten
  ++ ((pilCallouts M env d).2.map (fun c => c.prims)).flatten
  ++ pilImagePanel (load_font env 16) d
  ++ [PPrim.lineSeg 30 (PX_H - 36) (PX_W - 30) (PX_H - 36) ⟨229, 231, 235⟩ 1,
      PPrim.text (PX_W / 2) (PX_H - 26) FOOTER_TEXT (load_font env 14)
        C_MID_GRAY true]

/-! ## The second generator (`generate_slides.py` at the repo root) -/

/-- The `"• "` prefix added by `_add_bullets`. -/
def bulletPrefixStr : String := "• "

/-- The paragraph texts `_add_bullets` puts in its text box: one
paragraph per entry, prefixed with the marker unless already marked. -/
def addBulletsTexts (bullets : List String) : List String :=
  bullets.map (fun b => if isSub b then b else bulletPrefixStr ++ b)

/-- Source `LOGO_PATH` (the script-directory join is absorbed into
`Env.fileExists`). -/
def LOGO_PATH : String := "docs/media/inspektor-gadget-logo.png"

/-- Source `SLIDE_W = Inches(13.333)` of the second generator:
`int(13.333 * 914400) = 12191695` (checked numerically). -/
def SLIDE_W2 : Int := 12191695

/-- Source `SLIDE_H = Inches(7.5)` of the second generator. -/
def SLIDE_H2 : Int := Inches100 750

/-- Source `LOGO_W = Inches(1.6)`. -/
def LOGO_W : Int := Inches100 160

/-- Source `LOGO_H = Inches(0.48)`. -/
def LOGO_H : Int := Inches100 48

/-- Source `LOGO_LEFT = Inches(0.2)`. -/
def LOGO_LEFT : Int := Inches100 20

/-- Source `LOGO_BOTTOM_MARGIN = Inches(0.15)`. -/
def LOGO_BOTTOM_MARGIN : Int := Inches100 15

/-- Source `_logo_top(slide_h)`. -/
def logo_top (slide_h : Int) : Int := slide_h - LOGO_H - LOGO_BOTTOM_MARGIN

/-- Source `_add_logo(slide)`: places the logo picture only when the file
exists; otherwise it returns silently and adds nothing. -/
def add_logo (env : Env) : List Prim :=
  if env.fileExists LOGO_PATH then
    [Prim.picture LOGO_PATH LOGO_LEFT (logo_top SLIDE_H2) LOGO_W LOGO_H]
  else []

/-! ## CLI entry point of `slides/generate_slides.py` -/

/-- The fixed pptx output file name. -/
def OUT_PPTX : String := "Ask_and_You_Shall_Debug_SCaLE.pptx"

/-- Prefix of preview file names. -/
def previewPrefixStr : String := "preview_"

/-- Suffix of preview file names. -/
def pngSuffix : String := ".png"

/-- Source `PREVIEWS_DIR / f"preview_{slide_id}.png"` (the fixed directory
prefix is dropped; the id-dependent part is kept). -/
def previewPath (i : String) : String := previewPrefixStr ++ i ++ pngSuffix

/-- An observable output of `main`: a saved file or a warning line. -/
inductive OutEvent
  | pptxFile (path : String)
  | previewFile (slideId : String) (path : String)
  | warnUnknown (slideId : String)
deriving DecidableEq

/-- Source `by_id` lookup: the slide with the given id, if any (ids are unique
in `SLIDES`, so the dict comprehension and `find?` agree). -/
def findSlide (i : String) : Option SlideData :=
  SLIDES.find? (fun s => s.id == i)

/-- Python `sorted` on strings (ascending lexicographic by code point).
On the duplicate-free lists it is applied to, any correct sort produces
the same list, so the Mathlib insertion sort is used. -/
def sortStr (l : List String) : List String :=
  l.insertionSort (fun a b => a ≤ b)

/-- The body of the preview loop for one requested id: a warning for an
unknown id, a saved preview file (rendered by `render_preview`)
otherwise. -/
def previewStep (i : String) : OutEvent :=
  if (findSlide i).isSome then OutEvent.previewFile i (previewPath i)
  else OutEvent.warnUnknown i

/-- The preview loop of `main`: iterate over `sorted(preview_ids)` where
`preview_ids` is a set (modelled by `dedup`; membership is all that
survives the sort). -/
def previewEvents (ids : List String) : List OutEvent :=
  (sortStr ids.dedup).map previewStep

/-- The default preview id set of `main`. -/
def defaultPreviewIds : List String :=
  ["title", "agenda", "scenario-1-dns-symptoms", "architecture-high-level"]

/-- Source `preview_ids = set(args.preview_slides) if args.preview_slides is
not None else default_preview_ids`. -/
def previewIdsOf (preview_slides : Option (List String)) : List String :=
  match preview_slides with
  | some l => l
  | none => defaultPreviewIds

/-- Source `main(args)` as its list of emitted outputs, in order. -/
def mainEvents (no_pptx no_previews : Bool)
    (preview_slides : Option (List String)) : List OutEvent :=
  (if no_pptx then [] else [OutEvent.pptxFile OUT_PPTX])
  ++ (if no_previews then [] else previewEvents (previewIdsOf preview_slides))

/-- Whether an output event is a saved preview file. -/
def OutEvent.isFile : OutEvent → Bool
  | OutEvent.previewFile _ _ => true
  | _ => false

/-- The saved preview-file events among a list of outputs. -/
def eventFiles (es : List OutEvent) : List OutEvent :=
  es.filter OutEvent.isFile

/-- The slide id an output event concerns (the path for the pptx). -/
def eventId : OutEvent → String
  | OutEvent.pptxFile p => p
  | OutEvent.previewFile i _ => i
  | OutEvent.warnUnknown i => i

/-! ## Lemmas about the greedy wrap -/

theorem lineText_singleton (w : String) : lineText [w] = w := rfl

/-- Invariant of the wrap fold: committed lines fit, and the current
line is empty or fits, provided every single word fits. -/
theorem wrap_foldl_fits (w : String → Int) (maxW : Int)
    (words : List String) :
    ∀ st : List (List String) × List String,
      (∀ u ∈ words, w u ≤ maxW) →
      (∀ l ∈ st.1, w (lineText l) ≤ maxW) →
      (st.2 = [] ∨ w (lineText st.2) ≤ maxW) →
      (∀ l ∈ (words.foldl (wrapStep w maxW) st).1, w (lineText l) ≤ maxW)
      ∧ ((words.foldl (wrapStep w maxW) st).2 = []
         ∨ w (lineText (words.foldl (wrapStep w maxW) st).2) ≤ maxW) := by
  induction words with
  | nil => intro st _ h1 h2; exact ⟨h1, h2⟩
  | cons word rest ih =>
    intro st hw h1 h2
    rw [List.foldl_cons]
    have hword : w word ≤ maxW := hw word (List.mem_cons_self word rest)
    apply ih
    · intro u hu
      exact hw u (List.mem_cons_of_mem word hu)
    · intro l hl
      simp only [wrapStep] at hl
      split_ifs at hl with hfit hemp
      · exact h1 l hl
      · exact h1 l hl
      · rcases List.mem_append.mp hl with h | h
        · exact h1 l h
        · have hl2 : l = st.2 := List.mem_singleton.mp h
          subst hl2
          rcases h2 with h2 | h2
          · exact absurd (List.isEmpty_iff.mpr h2) (by simpa using hemp)
          · exact h2
    · simp only [wrapStep]
      split_ifs with hfit hemp
      · exact Or.inr hfit
      · exact Or.inr (by rw [lineText_singleton]; exact hword)
      · exact Or.inr (by rw [lineText_singleton]; exact hword)

/-- Invariant of the wrap fold: the committed lines followed by the
current line always hold exactly the words consumed so far. -/
theorem wrap_foldl_flatten (w : String → Int) (maxW : Int)
    (words : List String) :
    ∀ st : List (List String) × List String,
      (words.foldl (wrapStep w maxW) st).1.flatten
          ++ (words.foldl (wrapStep w maxW) st).2
        = st.1.flatten ++ st.2 ++ words := by
  induction words with
  | nil => intro st; simp
  | cons word rest ih =>
    intro st
    rw [List.foldl_cons, ih]
    simp only [wrapStep]
    split_ifs with hfit hemp
    · simp
    · have h2 : st.2 = [] := List.isEmpty_iff.mp hemp
      simp [h2]
    · simp

/-- Every wrapped line fits, provided every single word fits. -/
theorem wrapWords_fits (w : String → Int) (maxW : Int)
    (words : List String) (hw : ∀ u ∈ words, w u ≤ maxW) :
    ∀ l ∈ wrapWords w maxW words, w (lineText l) ≤ maxW := by
  have h := wrap_foldl_fits w maxW words ([], []) hw (by simp) (Or.inl rfl)
  intro l hl
  simp only [wrapWords] at hl
  split_ifs at hl with hemp
  · exact h.1 l hl
  · rcases List.mem_append.mp hl with hm | hm
    · exact h.1 l hm
    · have hl2 : l = _ := List.mem_singleton.mp hm
      subst hl2
      rcases h.2 with h2 | h2
      · exact absurd (List.isEmpty_iff.mpr h2) (by simpa using hemp)
      · exact h2

/-- Concatenating the words of all wrapped lines reproduces the words of
the input exactly. -/
theorem wrapWords_flatten (w : String → Int) (maxW : Int)
    (words : List String) :
    (wrapWords w maxW words).flatten = words := by
  have h := wrap_foldl_flatten w maxW words ([], [])
  simp only [wrapWords]
  split_ifs with hemp
  · have h2 : _ = ([] : List String) := List.isEmpty_iff.mp hemp
    rw [h2] at h
    simpa using h
  · rw [List.flatten_append]
    simpa using h

/-! ## Claim C1 -/

/-- A concrete text measure (each character one unit wide): an
admissible instance of the abstract font metric `Draw.textWidth`. -/
def lenWidth : String → Int := fun s => (s.length : Int)

/-- A single word that is wider than the column. -/
def oneWordText : String := "aaaa"

/-- Claim C1 (counterexample): the greedy wrap CAN produce a line wider
than the column width — a single word wider than the column is emitted
as a full line.  Here the four-character word `oneWordText` is wrapped
to column width 3 under the one-unit-per-character measure. -/
theorem c1_counterexample :
    ∃ l ∈ wrapLines lenWidth 3 oneWordText, 3 < lenWidth l := by decide

/-- Claim C1 (amended): provided every single word of the text fits the
column width, no produced line exceeds the column width; and,
unconditionally — also for texts containing over-wide words — the
concatenation of the words of all produced lines (each produced line is
`lineText` of its words) reproduces the words of the original text
exactly. -/
theorem c1_wrap_fits_and_reproduces (w : String → Int) (maxW : Int)
    (text : String) :
    ((∀ word ∈ pySplit text, w word ≤ maxW) →
      ∀ l ∈ wrapLines w maxW text, w l ≤ maxW)
    ∧ (wrapWords w maxW (pySplit text)).flatten = pySplit text := by
  constructor
  · intro hfit l hl
    simp only [wrapLines] at hl
    obtain ⟨c, hc, rfl⟩ := List.mem_map.mp hl
    exact wrapWords_fits w maxW (pySplit text) hfit c hc
  · exact wrapWords_flatten w maxW (pySplit text)

/-- A two-word text whose words individually fit column width 5. -/
def twoWordText : String := "ab cd"

/-- Witness for the amended C1 at a concrete input: the every-word-fits
hypothesis of the width half is discharged at `twoWordText`, and the
reproduction half is instantiated both there and — with no hypothesis —
at the over-wide `oneWordText` of the counterexample. -/
theorem c1_witness :
    (∀ word ∈ pySplit twoWordText, lenWidth word ≤ 5)
    ∧ (∀ l ∈ wrapLines lenWidth 5 twoWordText, lenWidth l ≤ 5)
    ∧ (wrapWords lenWidth 5 (pySplit twoWordText)).flatten
        = pySplit twoWordText
    ∧ (wrapWords lenWidth 3 (pySplit oneWordText)).flatten
        = pySplit oneWordText :=
  ⟨by decide,
   (c1_wrap_fits_and_reproduces lenWidth 5 twoWordText).1 (by decide),
   (c1_wrap_fits_and_reproduces lenWidth 5 twoWordText).2,
   (c1_wrap_fits_and_reproduces lenWidth 3 oneWordText).2⟩

/-! ## Claim C9 -/

/-- The drawing fold of `_draw_wrapped_text` advances `y` by one line
height per drawn line. -/
theorem drawLoop_y (x : Int) (font : Font) (fill : RGB) (lh : Int)
    (lines : List String) :
    ∀ (y : Int) (ps : List PPrim),
      (lines.foldl
        (fun st line =>
          (st.1 + lh, st.2 ++ [PPrim.text x st.1 line font fill false]))
        (y, ps)).1
      = y + (lines.length : Int) * lh := by
  induction lines with
  | nil => intro y ps; simp
  | cons l rest ih =>
    intro y ps
    rw [List.foldl_cons, ih]
    simp only [List.length_cons]
    push_cast
    ring

/-- A concrete text metric: one unit per character, bbox bottom 20. -/
def M0 : Draw := ⟨fun _ s => (s.length : Int), fun _ _ => 20⟩

/-- A one-word text drawn in the counterexample. -/
def helloText : String := "hello"

/-- Claim C9 (counterexample): `_draw_wrapped_text` does NOT return the
cumulative height consumed (number of lines times line height).  Drawing
`helloText` (one line) from `y = 100` with line height 36 returns 136,
not `1 * 36`. -/
theorem c9_counterexample :
    (draw_wrapped_text M0 helloText Font.load_default 0 100 1000 C_WHITE
        (some 36)).1
      ≠ ((wrapLines (fun s => M0.textWidth Font.load_default s) 1000
            helloText).length : Int) * 36 := by
  decide

/-- Claim C9 (amended): `_draw_wrapped_text` returns the STARTING `y`
plus the number of produced lines times the line height — its final `y`
position, exactly as its own docstring says. -/
theorem c9_returns_final_y (M : Draw) (text : String) (font : Font)
    (x y max_width : Int) (fill : RGB) (line_height : Option Int) :
    (draw_wrapped_text M text font x y max_width fill line_height).1
      = y + ((wrapLines (fun s => M.textWidth font s) max_width
            text).length : Int)
          * pyOr line_height (M.textBottom font agStr + 4) := by
  simp only [draw_wrapped_text]
  exact drawLoop_y x font fill _ _ y []

/-! ## Claim C8 -/

/-- Source `loadFrom` returns the truetype font of the first candidate that
exists and loads, and the built-in default when there is none. -/
theorem loadFrom_eq_find (env : Env) (size : Nat) (cs : List String) :
    loadFrom env size cs =
      match cs.find? (fun p => ttOk env p) with
      | some p => Font.truetype p size
      | none => Font.load_default := by
  induction cs with
  | nil => rfl
  | cons p ps ih =>
    rw [loadFrom, List.find?_cons]
    by_cases h1 : env.fileExists p = true
    · by_cases h2 : env.loadOk p = true
      · have ht : ttOk env p = true := by simp [ttOk, h1, h2]
        simp [h1, h2, ht]
      · have h2f : env.loadOk p = false := by simpa using h2
        have ht : ttOk env p = false := by simp [ttOk, h2f]
        simp [h1, h2f, ht, ih]
    · have h1f : env.fileExists p = false := by simpa using h1
      have ht : ttOk env p = false := by simp [ttOk, h1f]
      simp [h1f, ht, ih]

/-- Claim C8: font loading tries each candidate path in order — the
result is the truetype font of the first candidate that exists and
loads — and returns the built-in default font when no candidate exists
or loads; it is a total function of the environment (no error can
escape: the source swallows `OSError` per candidate, and the preview
font block of `generate_slides.py` catches every exception and falls
back to the default for all four fonts). -/
theorem c8_font_fallback (env : Env) (size : Nat) :
    (load_font env size =
      match fontCandidates.find? (fun p => ttOk env p) with
      | some p => Font.truetype p size
      | none => Font.load_default)
    ∧ ((∀ p ∈ fontCandidates, ttOk env p = false) →
        load_font env size = Font.load_default)
    ∧ (load_font_bold env size =
      match fontBoldCandidates.find? (fun p => ttOk env p) with
      | some p => Font.truetype p size
      | none => Font.load_default)
    ∧ (∀ b : Bool, (ttOk env dejavuBoldPath && ttOk env dejavuPath) = false →
        gpFonts env b =
          (Font.load_default, Font.load_default, Font.load_default,
           Font.load_default)) := by
  refine ⟨loadFrom_eq_find env size fontCandidates, ?_,
    loadFrom_eq_find env size fontBoldCandidates, ?_⟩
  · intro hall
    have hnone : fontCandidates.find? (fun p => ttOk env p) = none := by
      rw [List.find?_eq_none]
      intro p hp
      simp [hall p hp]
    have hfind := loadFrom_eq_find env size fontCandidates
    rw [hnone] at hfind
    exact hfind
  · intro b hf
    simp [gpFonts, hf]

/-- An environment in which no file exists and nothing loads. -/
def env0 : Env := ⟨fun _ => false, fun _ => false, fun _ => false⟩

/-- Witness for C8: with no font file available, `_load_font` returns
the built-in default. -/
theorem c8_witness :
    (∀ p ∈ fontCandidates, ttOk env0 p = false)
    ∧ load_font env0 24 = Font.load_default :=
  ⟨by decide, (c8_font_fallback env0 24).2.1 (by decide)⟩

/-! ## Claim C2 -/

/-- The `layout` value of content slides. -/
def titleAndBulletsStr : String := "title_and_bullets"

/-- The `layout` value of the title slide. -/
def titleLayoutStr : String := "title"

/-- The preview bullet loop adds exactly one drawn bullet per entry. -/
theorem pilBullets_foldl_length (M : Draw) (bf sf : Font) (cr : Int)
    (bs : List String) :
    ∀ st : Int × List BulletDraw,
      ((bs.foldl (pilBulletStep M bf sf cr) st).2).length
        = st.2.length + bs.length := by
  induction bs with
  | nil => intro st; simp
  | cons b rest ih =>
    intro st
    rw [List.foldl_cons, ih]
    simp only [pilBulletStep, List.length_append, List.length_singleton,
      List.length_cons, List.length_nil]
    omega

/-- Claim C2: for content slides, each output path renders exactly one
bullet element per entry of `bullets` — one text box per entry in the
pptx builder, one drawn bullet block per entry in the preview renderer,
and one paragraph per entry in `_add_bullets` of the second generator. -/
theorem c2_bullet_count (M : Draw) (env : Env) (d : SlideData)
    (_hl : d.layout = titleAndBulletsStr) :
    (pptxBulletPrims d).length = d.bullets.length
    ∧ ((pilBullets M env d).2).length = d.bullets.length
    ∧ (addBulletsTexts d.bullets).length = d.bullets.length := by
  refine ⟨?_, ?_, ?_⟩
  · simp [pptxBulletPrims, List.enum_length]
  · simp [pilBullets, pilBullets_foldl_length]
  · simp [addBulletsTexts]

/-- The example descriptor of the specification:
`{id:"demo", layout:"title_and_bullets", title:"T", bullets:["a","b"],
callouts:["c"]}`. -/
def demoSlide : SlideData :=
  { id := "demo", layout := "title_and_bullets", title := "T",
    bullets := ["a", "b"], callouts := ["c"] }

/-- Witness for C2 at the demo descriptor under a concrete metric and
environment. -/
theorem c2_witness :
    demoSlide.layout = titleAndBulletsStr
    ∧ ((pptxBulletPrims demoSlide).length = demoSlide.bullets.length
       ∧ ((pilBullets M0 env0 demoSlide).2).length = demoSlide.bullets.length
       ∧ (addBulletsTexts demoSlide.bullets).length
           = demoSlide.bullets.length) :=
  ⟨rfl, c2_bullet_count M0 env0 demoSlide rfl⟩

/-! ## Claim C4 -/

/-- Every bullet drawn by the preview loop sits at the horizontal
offset `bulletX` of its text. -/
theorem pilBullets_foldl_x (M : Draw) (bf sf : Font) (cr : Int)
    (bs : List String) :
    ∀ st : Int × List BulletDraw,
      (∀ bd ∈ st.2, bd.x = bulletX bd.text) →
      ∀ bd ∈ (bs.foldl (pilBulletStep M bf sf cr) st).2,
        bd.x = bulletX bd.text := by
  induction bs with
  | nil => intro st h; exact h
  | cons b rest ih =>
    intro st h
    rw [List.foldl_cons]
    apply ih
    intro bd hbd
    simp only [pilBulletStep] at hbd
    rcases List.mem_append.mp hbd with hm | hm
    · exact h bd hm
    · have hb : bd = _ := List.mem_singleton.mp hm
      subst hb
      rfl

/-- Claim C4: within a slide, a sub-bullet (marker-prefixed) is always
placed at a strictly larger horizontal offset than a non-sub bullet, in
both output paths: the pptx text-box left edge `bulletLeftPptx` and the
preview x offset `bulletX` (the offset every drawn preview bullet
actually receives). -/
theorem c4_sub_bullet_offset (b1 b2 : String)
    (h1 : isSub b1 = true) (h2 : isSub b2 = false) :
    bulletLeftPptx b2 < bulletLeftPptx b1
    ∧ bulletX b2 < bulletX b1
    ∧ ∀ (M : Draw) (env : Env) (d : SlideData) (bd1 bd2 : BulletDraw),
        bd1 ∈ (pilBullets M env d).2 → bd2 ∈ (pilBullets M env d).2 →
        bd1.text = b1 → bd2.text = b2 → bd2.x < bd1.x := by
  refine ⟨?_, ?_, ?_⟩
  · simp [bulletLeftPptx, bulletIndentPptx, h1, h2, Inches100]
  · simp [bulletX, h1, h2]
  · intro M env d bd1 bd2 hm1 hm2 ht1 ht2
    have hx1 := pilBullets_foldl_x M (load_font env 26) (load_font env 22)
      (contentRightPil d) d.bullets (TITLE_STRIP_H + 24, [])
      (by intro bd hbd; simp at hbd) bd1 hm1
    have hx2 := pilBullets_foldl_x M (load_font env 26) (load_font env 22)
      (contentRightPil d) d.bullets (TITLE_STRIP_H + 24, [])
      (by intro bd hbd; simp at hbd) bd2 hm2
    rw [hx1, hx2, ht1, ht2]
    simp [bulletX, h1, h2]

/-- A sample sub-bullet. -/
def sampleSubBullet : String := "• sample sub"

/-- A sample non-sub bullet. -/
def sampleMainBullet : String := "sample main"

/-- Witness for C4 at concrete bullet strings. -/
theorem c4_witness :
    isSub sampleSubBullet = true
    ∧ isSub sampleMainBullet = false
    ∧ bulletLeftPptx sampleMainBullet < bulletLeftPptx sampleSubBullet
    ∧ bulletX sampleMainBullet < bulletX sampleSubBullet :=
  ⟨by decide, by decide,
   (c4_sub_bullet_offset sampleSubBullet sampleMainBullet (by decide)
     (by decide)).1,
   (c4_sub_bullet_offset sampleSubBullet sampleMainBullet (by decide)
     (by decide)).2.1⟩

/-! ## Claim C5 -/

/-- Claim C5: when `images` is empty or absent, the content width used
to lay out bullets spans the full canvas minus only the fixed side
margins, with no image-panel reservation, in both output paths: the
right content edge is `SLIDE_W - Inches(0.5)` resp. `PX_W - 40`, and
the per-bullet layout width is canvas width minus fixed margins and the
fixed per-bullet indent only. -/
theorem c5_full_width_without_images (d : SlideData) (h : d.images = []) :
    contentRightPptx d = SLIDE_W - Inches100 50
    ∧ contentRightPil d = PX_W - 40
    ∧ (∀ b : String,
        contentRightPptx d - Inches100 60 - bulletIndentPptx b
          = SLIDE_W - (Inches100 50 + Inches100 60 + bulletIndentPptx b))
    ∧ (∀ b : String,
        contentRightPil d - bulletX b - 20
          = PX_W - (40 + bulletX b + 20)) := by
  have hni : hasImage d = false := by
    simp [hasImage, h]
  refine ⟨by simp [contentRightPptx, hni], by simp [contentRightPil, hni],
    ?_, ?_⟩
  · intro b
    simp only [contentRightPptx, hni, Bool.false_eq_true, if_false]
    ring
  · intro b
    simp only [contentRightPil, hni, Bool.false_eq_true, if_false]
    ring

/-- Witness for C5 at the image-free demo descriptor. -/
theorem c5_witness :
    demoSlide.images = []
    ∧ (contentRightPptx demoSlide = SLIDE_W - Inches100 50
       ∧ contentRightPil demoSlide = PX_W - 40
       ∧ (∀ b : String,
           contentRightPptx demoSlide - Inches100 60 - bulletIndentPptx b
             = SLIDE_W - (Inches100 50 + Inches100 60 + bulletIndentPptx b))
       ∧ (∀ b : String,
           contentRightPil demoSlide - bulletX b - 20
             = PX_W - (40 + bulletX b + 20))) :=
  ⟨rfl, c5_full_width_without_images demoSlide rfl⟩

/-! ## Claim C7 -/

/-- Claim C7: when the image file of the first `images` entry is absent,
the builder emits no picture primitive but still emits the panel
background and (when nonempty) the caption text; the panel background is
part of the built slide; and `_add_logo` of the second generator
likewise silently adds nothing when the logo file is absent.  All
builders are total functions, so the run is never aborted by a missing
optional asset. -/
theorem c7_missing_image (env : Env) (d : SlideData) (img : ImageInfo)
    (rest : List ImageInfo) (hi : d.images = img :: rest)
    (hmiss : env.fileExists img.path = false) :
    pptxImagePrims env d
        = pptxPanelRect
          :: (if img.caption ≠ "" then [pptxCaptionBox img.caption] else [])
    ∧ pptxPanelRect ∈ build_content_slide env d
    ∧ (env.fileExists LOGO_PATH = false → add_logo env = []) := by
  have h1 : pptxImagePrims env d
      = pptxPanelRect
        :: (if img.caption ≠ "" then [pptxCaptionBox img.caption] else []) := by
    simp [pptxImagePrims, hi, hmiss]
  refine ⟨h1, ?_, ?_⟩
  · have hm : pptxPanelRect ∈ pptxImagePrims env d := by
      rw [h1]
      exact List.mem_cons_self _ _
    simp only [build_content_slide, List.append_assoc, List.mem_append]
    tauto
  · intro hlogo
    simp [add_logo, hlogo]

/-- A concrete images entry whose file is absent in `env0`. -/
def imgDemoImage : ImageInfo :=
  { path := "docs/media/missing.png", caption := "cap", optionalFlag := true }

/-- A concrete descriptor carrying `imgDemoImage`. -/
def imgDemoSlide : SlideData :=
  { id := "img-demo", layout := "title_and_bullets", title := "T",
    bullets := ["x"], images := [imgDemoImage] }

/-- Witness for C7 at a concrete slide and empty filesystem. -/
theorem c7_witness :
    imgDemoSlide.images = imgDemoImage :: []
    ∧ env0.fileExists imgDemoImage.path = false
    ∧ (pptxImagePrims env0 imgDemoSlide
        = pptxPanelRect
          :: (if imgDemoImage.caption ≠ "" then
                [pptxCaptionBox imgDemoImage.caption] else [])
       ∧ pptxPanelRect ∈ build_content_slide env0 imgDemoSlide
       ∧ (env0.fileExists LOGO_PATH = false → add_logo env0 = [])) :=
  ⟨rfl, rfl, c7_missing_image env0 imgDemoSlide imgDemoImage [] rfl rfl⟩

/-! ## Claim C6 -/

/-- One bullet-loop step strictly increases the running `y`. -/
theorem pilBulletStep_y_gt (M : Draw) (bf sf : Font) (cr : Int)
    (st : Int × List BulletDraw) (b : String) :
    st.1 < (pilBulletStep M bf sf cr st b).1 := by
  simp only [pilBulletStep, draw_wrapped_text]
  rw [drawLoop_y]
  have hlh : pyOr (some 36)
      (M.textBottom (if isSub b = true then sf else bf) agStr + 4) = 36 := by
    simp [pyOr]
  rw [hlh]
  have hn : (0:Int) ≤ ((wrapLines
      (fun s => M.textWidth (if isSub b = true then sf else bf) s)
      (cr - bulletX b - 20) b).length : Int) := Int.natCast_nonneg _
  omega

/-- One bullet-loop step appends exactly one drawn bullet, placed at
the running `y`, with offset `bulletX` of its text. -/
theorem pilBulletStep_snd (M : Draw) (bf sf : Font) (cr : Int)
    (st : Int × List BulletDraw) (b : String) :
    ∃ bd : BulletDraw, (pilBulletStep M bf sf cr st b).2 = st.2 ++ [bd]
      ∧ bd.y = st.1 ∧ bd.x = bulletX b ∧ bd.text = b :=
  ⟨_, rfl, rfl, rfl, rfl⟩

/-- Invariant of the preview bullet loop: every drawn bullet lies
strictly above the running `y`, the drawn `y` positions are strictly
increasing in list order, and the running `y` never decreases. -/
theorem pilBullets_foldl_y (M : Draw) (bf sf : Font) (cr : Int)
    (bs : List String) :
    ∀ st : Int × List BulletDraw,
      (∀ bd ∈ st.2, bd.y < st.1) →
      ((st.2.map BulletDraw.y).Pairwise (· < ·)) →
      (∀ bd ∈ (bs.foldl (pilBulletStep M bf sf cr) st).2,
          bd.y < (bs.foldl (pilBulletStep M bf sf cr) st).1)
      ∧ (((bs.foldl (pilBulletStep M bf sf cr) st).2.map
            BulletDraw.y).Pairwise (· < ·))
      ∧ st.1 ≤ (bs.foldl (pilBulletStep M bf sf cr) st).1 := by
  induction bs with
  | nil => intro st h1 h2; exact ⟨h1, h2, le_refl _⟩
  | cons b rest ih =>
    intro st h1 h2
    rw [List.foldl_cons]
    have hstep := pilBulletStep_y_gt M bf sf cr st b
    obtain ⟨nbd, hsnd, hy, hx, htxt⟩ := pilBulletStep_snd M bf sf cr st b
    have hnew1 : ∀ bd ∈ (pilBulletStep M bf sf cr st b).2,
        bd.y < (pilBulletStep M bf sf cr st b).1 := by
      intro bd hbd
      rw [hsnd] at hbd
      rcases List.mem_append.mp hbd with hm | hm
      · exact lt_trans (h1 bd hm) hstep
      · rw [List.mem_singleton.mp hm, hy]
        exact hstep
    have hnew2 : (((pilBulletStep M bf sf cr st b).2.map
        BulletDraw.y).Pairwise (· < ·)) := by
      rw [hsnd, List.map_append, List.pairwise_append]
      refine ⟨h2, List.pairwise_singleton _ _, ?_⟩
      intro a ha b' hb'
      simp only [List.map_cons, List.map_nil, List.mem_singleton] at hb'
      subst hb'
      obtain ⟨bd0, hbd0, rfl⟩ := List.mem_map.mp ha
      rw [hy]
      exact h1 bd0 hbd0
    obtain ⟨ha', hb', hc'⟩ := ih (pilBulletStep M bf sf cr st b) hnew1 hnew2
    exact ⟨ha', hb', le_trans (le_of_lt hstep) hc'⟩

/-- Invariant of the preview callout loop: every drawn callout was
already present or sits at or below the starting `y`, and the running
`y` never decreases. -/
theorem pilCallouts_foldl_y (f : Font) (cr : Int) (cs : List String) :
    ∀ st : Int × List CalloutDraw,
      (∀ cd ∈ (cs.foldl (pilCalloutStep f cr) st).2,
          cd ∈ st.2 ∨ st.1 ≤ cd.y)
      ∧ st.1 ≤ (cs.foldl (pilCalloutStep f cr) st).1 := by
  induction cs with
  | nil => intro st; exact ⟨fun cd h => Or.inl h, le_refl _⟩
  | cons c restc ih =>
    intro st
    rw [List.foldl_cons]
    obtain ⟨ha, hb⟩ := ih (pilCalloutStep f cr st c)
    constructor
    · intro cd hcd
      rcases ha cd hcd with h | h
      · simp only [pilCalloutStep] at h
        rcases List.mem_append.mp h with h2 | h2
        · exact Or.inl h2
        · rw [List.mem_singleton.mp h2]
          exact Or.inr (le_refl _)
      · refine Or.inr (le_trans ?_ h)
        simp only [pilCalloutStep]
        omega
    · refine le_trans ?_ hb
      simp only [pilCalloutStep]
      omega

/-- The preview callout loop adds exactly one drawn callout per entry. -/
theorem pilCallouts_foldl_length (f : Font) (cr : Int) (cs : List String) :
    ∀ st : Int × List CalloutDraw,
      ((cs.foldl (pilCalloutStep f cr) st).2).length
        = st.2.length + cs.length := by
  induction cs with
  | nil => intro st; simp
  | cons c restc ih =>
    intro st
    rw [List.foldl_cons, ih]
    simp only [pilCalloutStep, List.length_append, List.length_cons,
      List.length_nil]
    omega

/-- Claim C6: bullets occupy strictly increasing vertical positions in
list order, and every callout is placed strictly below every bullet —
in the pptx path via the closed-form tops `bulletTopPptx` /
`calloutTopPptx`, in the preview path via the positions the loops
actually produce.  The demo descriptor (`bullets ["a","b"]`, callouts
`["c"]`, canvas width 1280) draws exactly two bullets and one callout,
to which these orderings apply. -/
theorem c6_vertical_order :
    (∀ i j : Nat, i < j → bulletTopPptx i < bulletTopPptx j)
    ∧ (∀ (d : SlideData) (i : Nat), i < d.bullets.length →
        bulletTopPptx i < calloutTopPptx d)
    ∧ (∀ (M : Draw) (env : Env) (d : SlideData),
        (((pilBullets M env d).2.map BulletDraw.y).Pairwise (· < ·)))
    ∧ (∀ (M : Draw) (env : Env) (d : SlideData),
        ∀ bd ∈ (pilBullets M env d).2, ∀ cd ∈ (pilCallouts M env d).2,
          bd.y < cd.y)
    ∧ (∀ (M : Draw) (env : Env),
        (pilBullets M env demoSlide).2.length = 2
        ∧ (pilCallouts M env demoSlide).2.length = 1) := by
  have hbul : ∀ (M : Draw) (env : Env) (d : SlideData),
      (∀ bd ∈ (pilBullets M env d).2, bd.y < (pilBullets M env d).1)
      ∧ (((pilBullets M env d).2.map BulletDraw.y).Pairwise (· < ·))
      ∧ (TITLE_STRIP_H + 24 : Int) ≤ (pilBullets M env d).1 := by
    intro M env d
    exact pilBullets_foldl_y M (load_font env 26) (load_font env 22)
      (contentRightPil d) d.bullets (TITLE_STRIP_H + 24, [])
      (by intro bd hbd; simp at hbd) (by simp)
  refine ⟨?_, ?_, ?_, ?_, ?_⟩
  · intro i j hij
    simp only [bulletTopPptx, pptxLineH, Inches100]
    omega
  · intro d i hi
    simp only [bulletTopPptx, calloutTopPptx, pptxLineH, Inches100]
    omega
  · intro M env d
    exact (hbul M env d).2.1
  · intro M env d bd hbd cd hcd
    have hby : bd.y < (pilBullets M env d).1 := (hbul M env d).1 bd hbd
    by_cases hce : d.callouts.isEmpty = true
    · exfalso
      simp only [pilCallouts, hce, if_true] at hcd
      simp at hcd
    · have hcf : d.callouts.isEmpty = false := by simpa using hce
      simp only [pilCallouts, hcf, Bool.false_eq_true, if_false] at hcd
      have hc := (pilCallouts_foldl_y (load_font_bold env 22)
        (contentRightPil d) d.callouts
        ((pilBullets M env d).1 + 10, [])).1 cd hcd
      rcases hc with hc | hc
      · simp at hc
      · calc bd.y < (pilBullets M env d).1 := hby
          _ ≤ (pilBullets M env d).1 + 10 := by omega
          _ ≤ cd.y := hc
  · intro M env
    constructor
    · have := pilBullets_foldl_length M (load_font env 26)
        (load_font env 22) (contentRightPil demoSlide) demoSlide.bullets
        (TITLE_STRIP_H + 24, [])
      simpa [pilBullets, demoSlide] using this
    · have hne : demoSlide.callouts.isEmpty = false := rfl
      simp only [pilCallouts, hne, Bool.false_eq_true, if_false]
      have := pilCallouts_foldl_length (load_font_bold env 22)
        (contentRightPil demoSlide) demoSlide.callouts
        ((pilBullets M env demoSlide).1 + 10, [])
      simpa [demoSlide] using this

/-- Witness for C6: the demo descriptor at concrete indices, metric and
environment. -/
theorem c6_witness :
    (0 : Nat) < 1 ∧ 1 < demoSlide.bullets.length
    ∧ bulletTopPptx 0 < bulletTopPptx 1
    ∧ bulletTopPptx 1 < calloutTopPptx demoSlide
    ∧ (((pilBullets M0 env0 demoSlide).2.map BulletDraw.y).Pairwise (· < ·))
    ∧ ((pilBullets M0 env0 demoSlide).2.length = 2
       ∧ (pilCallouts M0 env0 demoSlide).2.length = 1) :=
  ⟨by decide, by decide,
   c6_vertical_order.1 0 1 (by decide),
   c6_vertical_order.2.1 demoSlide 1 (by decide),
   c6_vertical_order.2.2.1 M0 env0 demoSlide,
   c6_vertical_order.2.2.2.2 M0 env0⟩

/-! ## Lemmas on the preview loop of `main` (claims C3 and C10) -/

theorem previewStep_warn_iff (i u : String) :
    previewStep i = OutEvent.warnUnknown u
      ↔ i = u ∧ (findSlide i).isSome = false := by
  by_cases h : (findSlide i).isSome = true
  · simp [previewStep, h]
  · have hf : (findSlide i).isSome = false := by simpa using h
    simp [previewStep, hf]

theorem previewStep_file_iff (i v p : String) :
    previewStep i = OutEvent.previewFile v p
      ↔ i = v ∧ (findSlide i).isSome = true ∧ p = previewPath i := by
  constructor
  · intro h
    by_cases hk : (findSlide i).isSome = true
    · rw [previewStep, if_pos hk] at h
      injection h with h1 h2
      exact ⟨h1, hk, h2.symm⟩
    · rw [previewStep, if_neg hk] at h
      exact absurd h (by simp)
  · rintro ⟨rfl, hk, rfl⟩
    rw [previewStep, if_pos hk]

theorem count_warn_zero (u : String) (L : List String) (hu : u ∉ L) :
    (L.map previewStep).count (OutEvent.warnUnknown u) = 0 := by
  induction L with
  | nil => rfl
  | cons a l ih =>
    have hau : a ≠ u := fun h => hu (h ▸ List.mem_cons_self a l)
    have hul : u ∉ l := fun h => hu (List.mem_cons_of_mem a h)
    rw [List.map_cons, List.count_cons, ih hul]
    simp [beq_iff_eq, previewStep_warn_iff, hau]

/-- In a duplicate-free run containing the unknown id `u`, exactly one
warning for `u` is printed. -/
theorem count_warn_map (u : String) (hu : (findSlide u).isSome = false)
    (L : List String) (hn : L.Nodup) (hm : u ∈ L) :
    (L.map previewStep).count (OutEvent.warnUnknown u) = 1 := by
  induction L with
  | nil => cases hm
  | cons a l ih =>
    rw [List.map_cons, List.count_cons]
    by_cases hau : a = u
    · subst hau
      have hnl : a ∉ l := (List.nodup_cons.mp hn).1
      rw [count_warn_zero a l hnl]
      simp [beq_iff_eq, previewStep_warn_iff, hu]
    · have hml : u ∈ l := by
        rcases List.mem_cons.mp hm with h | h
        · exact absurd h.symm hau
        · exact h
      rw [ih (List.nodup_cons.mp hn).2 hml]
      simp [beq_iff_eq, previewStep_warn_iff, hau]

theorem count_file_zero (v p : String) (L : List String) (hv : v ∉ L) :
    (L.map previewStep).count (OutEvent.previewFile v p) = 0 := by
  induction L with
  | nil => rfl
  | cons a l ih =>
    have hav : a ≠ v := fun h => hv (h ▸ List.mem_cons_self a l)
    have hvl : v ∉ l := fun h => hv (List.mem_cons_of_mem a h)
    rw [List.map_cons, List.count_cons, ih hvl]
    simp [beq_iff_eq, previewStep_file_iff, hav]

/-- In a duplicate-free run, the preview file for id `v` is saved
exactly once when `v` is requested and known, and never otherwise. -/
theorem count_file_map (v : String) (L : List String) (hn : L.Nodup) :
    (L.map previewStep).count (OutEvent.previewFile v (previewPath v))
      = if v ∈ L ∧ (findSlide v).isSome = true then 1 else 0 := by
  induction L with
  | nil => simp
  | cons a l ih =>
    rw [List.map_cons, List.count_cons, ih (List.nodup_cons.mp hn).2]
    by_cases hav : a = v
    · subst hav
      have hnl : a ∉ l := (List.nodup_cons.mp hn).1
      by_cases hk : (findSlide a).isSome = true
      · simp [beq_iff_eq, previewStep_file_iff, hk, hnl, List.mem_cons]
      · have hkf : (findSlide a).isSome = false := by simpa using hk
        simp [beq_iff_eq, previewStep_file_iff, hkf, hnl, List.mem_cons]
    · have hne : ¬(a = v) := hav
      simp only [List.mem_cons, beq_iff_eq]
      have hhead : ¬(previewStep a = OutEvent.previewFile v (previewPath v)) := by
        rw [previewStep_file_iff]
        tauto
      have hvna : ¬ v = a := fun h => hne h.symm
      simp [hhead, hvna]

/-- The file events of a preview run are exactly the steps of the known
requested ids, in order. -/
theorem eventFiles_map (L : List String) :
    eventFiles (L.map previewStep)
      = (L.filter (fun i => (findSlide i).isSome)).map previewStep := by
  induction L with
  | nil => rfl
  | cons a l ih =>
    simp only [List.map_cons, eventFiles, List.filter_cons] at *
    by_cases hk : (findSlide a).isSome = true
    · simp [previewStep, hk, OutEvent.isFile, ih]
    · have hf : (findSlide a).isSome = false := by simpa using hk
      simp [previewStep, hf, OutEvent.isFile, ih]

theorem sortStr_sorted (l : List String) :
    List.Sorted (· ≤ ·) (sortStr l) :=
  List.sorted_insertionSort _ l

theorem sortStr_perm (l : List String) : (sortStr l).Perm l :=
  List.perm_insertionSort _ l

theorem sortStr_nodup (l : List String) (h : l.Nodup) :
    (sortStr l).Nodup :=
  (sortStr_perm l).nodup_iff.mpr h

theorem sortStr_mem (x : String) (l : List String) :
    x ∈ sortStr l ↔ x ∈ l :=
  (sortStr_perm l).mem_iff

/-- Two sorted duplicate-free string lists with the same members are
equal. -/
theorem sorted_unique {l₁ l₂ : List String}
    (s₁ : List.Sorted (· ≤ ·) l₁) (s₂ : List.Sorted (· ≤ ·) l₂)
    (n₁ : l₁.Nodup) (n₂ : l₂.Nodup) (hm : ∀ x, x ∈ l₁ ↔ x ∈ l₂) :
    l₁ = l₂ := by
  refine List.eq_of_perm_of_sorted ?_ s₁ s₂
  refine List.perm_of_nodup_nodup_toFinset_eq n₁ n₂ ?_
  ext x
  simp only [List.mem_toFinset]
  exact hm x

theorem map_eventId_previewStep (L : List String) :
    (L.map previewStep).map eventId = L := by
  induction L with
  | nil => rfl
  | cons a l ih =>
    by_cases hk : (findSlide a).isSome = true
    · simp [previewStep, hk, eventId, ih]
    · have hf : (findSlide a).isSome = false := by simpa using hk
      simp [previewStep, hf, eventId, ih]

/-! ## Claim C3 -/

/-- Claim C3: a requested preview id matching no slide produces exactly
one warning line and no output file, and its presence does not change
which preview files the run produces for the other requested ids (the
file events of the run equal those of the run without it). -/
theorem c3_unknown_preview_id (ids : List String) (u : String)
    (hu : (findSlide u).isSome = false) (hmem : u ∈ ids) :
    (previewEvents ids).count (OutEvent.warnUnknown u) = 1
    ∧ (∀ p : String, OutEvent.previewFile u p ∉ previewEvents ids)
    ∧ eventFiles (previewEvents ids)
        = eventFiles (previewEvents (ids.filter (fun x => x != u))) := by
  refine ⟨?_, ?_, ?_⟩
  · exact count_warn_map u hu (sortStr ids.dedup)
      (sortStr_nodup _ (List.nodup_dedup ids))
      ((sortStr_mem u _).mpr ((List.mem_dedup).mpr hmem))
  · intro p hp
    obtain ⟨i, _, hstep⟩ := List.mem_map.mp hp
    obtain ⟨rfl, hk, _⟩ := (previewStep_file_iff i u p).mp hstep
    rw [hu] at hk
    cases hk
  · rw [previewEvents, previewEvents, eventFiles_map, eventFiles_map]
    congr 1
    apply sorted_unique
    · exact (sortStr_sorted _).filter _
    · exact (sortStr_sorted _).filter _
    · exact (sortStr_nodup _ (List.nodup_dedup ids)).filter _
    · exact (sortStr_nodup _ (List.nodup_dedup _)).filter _
    · intro x
      simp only [List.mem_filter, sortStr_mem, List.mem_dedup,
        bne_iff_ne]
      constructor
      · rintro ⟨hx, hkx⟩
        refine ⟨⟨hx, ?_⟩, hkx⟩
        intro hxu
        subst hxu
        rw [hu] at hkx
        cases hkx
      · rintro ⟨⟨hx, _⟩, hkx⟩
        exact ⟨hx, hkx⟩

/-- An id matching no slide descriptor. -/
def nopeId : String := "nope"

/-- A request list containing the unknown `nopeId` and the known
`agenda`. -/
def demoIds : List String := ["nope", "agenda"]

/-- Witness for C3 at a concrete request list. -/
theorem c3_witness :
    (findSlide nopeId).isSome = false ∧ nopeId ∈ demoIds
    ∧ ((previewEvents demoIds).count (OutEvent.warnUnknown nopeId) = 1
       ∧ (∀ p : String,
            OutEvent.previewFile nopeId p ∉ previewEvents demoIds)
       ∧ eventFiles (previewEvents demoIds)
           = eventFiles (previewEvents
               (demoIds.filter (fun x => x != nopeId)))) :=
  ⟨by decide, by decide,
   c3_unknown_preview_id demoIds nopeId (by decide) (by decide)⟩

/-! ## Claim C10 -/

/-- Claim C10: requested preview ids are deduplicated and processed in
strictly ascending lexicographic order; exactly one preview file is
written per distinct known requested id (and none for others); passing
the preview-selection flag with an empty id list produces zero preview
events rather than the default subset; the default subset is used
exactly when the flag is absent. -/
theorem c10_preview_selection (ids : List String) (v : String) :
    ((previewEvents ids).map eventId).Pairwise (· < ·)
    ∧ (previewEvents ids).count (OutEvent.previewFile v (previewPath v))
        = (if v ∈ ids ∧ (findSlide v).isSome = true then 1 else 0)
    ∧ previewEvents [] = []
    ∧ mainEvents true false (some []) = []
    ∧ mainEvents true false none = previewEvents defaultPreviewIds := by
  refine ⟨?_, ?_, rfl, rfl, rfl⟩
  · rw [previewEvents, map_eventId_previewStep]
    exact (sortStr_sorted ids.dedup).lt_of_le
      (sortStr_nodup _ (List.nodup_dedup ids))
  · rw [previewEvents,
      count_file_map v _ (sortStr_nodup _ (List.nodup_dedup ids))]
    simp only [sortStr_mem, List.mem_dedup]

end SlidesGen
